import Mathlib

/-!
Shallow embedding of the food-delivery backend order workflow:
checkout-session creation, the payment webhook handler, the owner
order-status update, and the restaurant create/update operations.
Document stores are modelled as lists of documents; each handler is a
pure function from the request data and the store to a response and the
store after the call. The payment gateway is an explicit function
parameter; a gateway call either throws (Except.error) or returns a
session value.
-/

namespace FoodDelivery

/-- A menu item of a restaurant (fields id, name, price from the source model). -/
structure MenuItem where
  mid : String
  name : String
  price : Nat
  deriving DecidableEq

/-- One cart line of a checkout request: menuItemId, name, quantity (a string). -/
structure CartItem where
  menuItemId : String
  name : String
  quantity : String
  deriving DecidableEq

/-- Delivery details copied verbatim from the request body. -/
structure DeliveryDetails where
  email : String
  name : String
  addressLine1 : String
  city : String
  deriving DecidableEq

/-- The body of a checkout-session request (CheckoutSessionRequest in the source). -/
structure CheckoutSessionRequest where
  cartItems : List CartItem
  deliveryDetails : DeliveryDetails
  restaurantId : String
  deriving DecidableEq

/-- A restaurant document. The user field is the owner user id. -/
structure RestaurantDoc where
  rid : String
  user : String
  restaurantName : String
  city : String
  country : String
  deliveryPrice : Nat
  estimatedDeliveryTime : Nat
  cuisines : List String
  menuItems : List MenuItem
  imageUrl : String
  lastUpdated : Nat
  deriving DecidableEq

/-- An order document. The restaurant field holds the restaurant id; totalAmount
is null until payment confirmation (amount_total from the gateway may itself be null). -/
structure OrderDoc where
  oid : String
  restaurant : String
  user : String
  status : String
  deliveryDetails : DeliveryDetails
  cartItems : List CartItem
  totalAmount : Option Int
  createdAt : Nat
  deriving DecidableEq

/-- A JavaScript error value as the checkout handler can catch it: a plain
Error built with new Error(message) carries no raw field, while an error
thrown by the gateway client library carries a raw object with a message. -/
inductive ThrownError where
  | plain (message : String)
  | gateway (rawMessage : String)
  deriving DecidableEq

/-- The value of error.raw.message for a caught error: reading it on a plain
Error dereferences an undefined raw field, which is itself a failure (none). -/
def ThrownError.rawMessage : ThrownError → Option String
  | .plain _ => none
  | .gateway m => some m

/-- JavaScript parseInt on a string: skip leading spaces, optional sign, then
read leading decimal digits; none models the NaN result when no digit is read. -/
def jsParseInt (s : String) : Option Int :=
  let core : Int → List Char → Option Int := fun sign cs =>
    let ds := cs.takeWhile Char.isDigit
    if ds.isEmpty then none
    else some (sign * (ds.foldl (fun a c => a * 10 + (c.toNat - 48)) 0 : Nat))
  match s.data.dropWhile (fun c => c = ' ') with
  | '-' :: rest => core (-1) rest
  | '+' :: rest => core 1 rest
  | cs => core 1 cs

/-- A gateway line item as built by createLineItems: minor-unit amount,
display name from the menu item, quantity from parseInt on the cart string. -/
structure LineItem where
  unit_amount : Nat
  currency : String
  name : String
  quantity : Option Int
  deriving DecidableEq

/-- Builds the line item for one resolved cart line, mirroring the line_item
object literal in createLineItems. -/
def mkLineItem (menuItem : MenuItem) (cartItem : CartItem) : LineItem :=
  { unit_amount := menuItem.price * 100
    currency := "dzd"
    name := menuItem.name
    quantity := jsParseInt cartItem.quantity }

/-- The traversal inside createLineItems: map over the cart lines, resolving
each menuItemId in the menu by exact id match; the first unresolved line
throws a plain Error naming the offending id. -/
def createLineItemsGo (menuItems : List MenuItem) :
    List CartItem → Except ThrownError (List LineItem)
  | [] => .ok []
  | cartItem :: rest =>
    match menuItems.find? (fun item => item.mid == cartItem.menuItemId) with
    | none => .error (.plain ("Menu item not found: " ++ cartItem.menuItemId))
    | some menuItem =>
      match createLineItemsGo menuItems rest with
      | .error e => .error e
      | .ok tail => .ok (mkLineItem menuItem cartItem :: tail)

/-- createLineItems from the source: converts the cart of a checkout request
into gateway line items against the given menu, throwing on the first cart
line whose menuItemId is not on the menu. -/
def createLineItems (checkoutSessionRequest : CheckoutSessionRequest)
    (menuItems : List MenuItem) : Except ThrownError (List LineItem) :=
  createLineItemsGo menuItems checkoutSessionRequest.cartItems

/-- One shipping option of the gateway session request. -/
structure ShippingOption where
  display_name : String
  rateType : String
  amount : Nat
  currency : String
  deriving DecidableEq

/-- The request body sent to the gateway session-creation endpoint. -/
structure SessionCreateParams where
  line_items : List LineItem
  shipping_options : List ShippingOption
  mode : String
  metadataOrderId : String
  metadataRestaurantId : String
  success_url : String
  cancel_url : String
  deriving DecidableEq

/-- A gateway checkout session; url is the redirect URL, possibly absent. -/
structure StripeSession where
  url : Option String
  deriving DecidableEq

/-- The session-creation request built by createSession: the line items, one
fixed-amount Delivery shipping line of deliveryPrice times 100, payment mode,
and metadata binding the order id and restaurant id. -/
def createSessionParams (lineItems : List LineItem) (orderId : String)
    (deliveryPrice : Nat) (restaurantId : String) (frontendUrl : String) :
    SessionCreateParams :=
  { line_items := lineItems
    shipping_options :=
      [{ display_name := "Delivery"
         rateType := "fixed_amount"
         amount := deliveryPrice * 100
         currency := "dzd" }]
    mode := "payment"
    metadataOrderId := orderId
    metadataRestaurantId := restaurantId
    success_url := frontendUrl ++ "/order-status?success=true"
    cancel_url := frontendUrl ++ "/detail/" ++ restaurantId ++ "?cancelled=true" }

/-- The gateway client: applied to the session parameters it either throws or
returns a session. Modelled as a function parameter of the handler. -/
def Gateway : Type := SessionCreateParams → Except ThrownError StripeSession

/-- The response of the checkout handler. caught500 is the 500 JSON body built
from error.raw.message in the catch block; handlerCrash is the outcome when the
catch block itself fails because the caught error has no raw field. -/
inductive CheckoutResponse where
  | ok (url : String)
  | sessionUrlError
  | caught500 (message : String)
  | handlerCrash (err : ThrownError)
  deriving DecidableEq

/-- What the catch block of createCheckoutSession produces for a caught error:
a 500 JSON carrying error.raw.message when the raw field exists, otherwise the
catch block itself throws. -/
def catchHandler (e : ThrownError) : CheckoutResponse :=
  match e.rawMessage with
  | some m => .caught500 m
  | none => .handlerCrash e

/-- Outcome of one checkout-session request: the response, the order store
after the call, and the list of session-creation calls made to the gateway. -/
structure CheckoutOutcome where
  response : CheckoutResponse
  orders : List OrderDoc
  gatewayCalls : List SessionCreateParams
  deriving DecidableEq

/-- createCheckoutSession from the source: resolve the restaurant (throw if
absent), build the new order eagerly, build the line items (throw on an
unresolved cart line), call the gateway, return 500 without persisting when
the session has no url, and persist the order only after a successful
gateway response. newOrderId and now stand for the generated document id and
the creation timestamp. -/
def createCheckoutSession (gw : Gateway) (frontendUrl : String)
    (restaurants : List RestaurantDoc) (orders : List OrderDoc)
    (userId : String) (newOrderId : String) (now : Nat)
    (req : CheckoutSessionRequest) : CheckoutOutcome :=
  match restaurants.find? (fun r => r.rid == req.restaurantId) with
  | none =>
    { response := catchHandler (.plain "Restaurant not found")
      orders := orders
      gatewayCalls := [] }
  | some restaurant =>
    let newOrder : OrderDoc :=
      { oid := newOrderId
        restaurant := restaurant.rid
        user := userId
        status := "placed"
        deliveryDetails := req.deliveryDetails
        cartItems := req.cartItems
        totalAmount := none
        createdAt := now }
    match createLineItems req restaurant.menuItems with
    | .error e =>
      { response := catchHandler e
        orders := orders
        gatewayCalls := [] }
    | .ok lineItems =>
      let params :=
        createSessionParams lineItems newOrder.oid restaurant.deliveryPrice
          restaurant.rid frontendUrl
      match gw params with
      | .error e =>
        { response := catchHandler e
          orders := orders
          gatewayCalls := [params] }
      | .ok session =>
        match session.url with
        | none =>
          { response := .sessionUrlError
            orders := orders
            gatewayCalls := [params] }
        | some url =>
          { response := .ok url
            orders := orders ++ [newOrder]
            gatewayCalls := [params] }

/-- A webhook event as produced by the gateway library from the signed body:
the event type, the metadata orderId (absent when metadata carries none), and
the gateway-reported total amount (null is possible on the wire). -/
structure WebhookEvent where
  eventType : String
  metadataOrderId : Option String
  amount_total : Option Int
  deriving DecidableEq

/-- Response of the webhook handler: 400 on a signature failure, 404 when the
referenced order is absent, 200 otherwise. -/
inductive WebhookResponse where
  | badSignature (message : String)
  | orderNotFound
  | ok
  deriving DecidableEq

/-- Persisting a loaded document with save: the store entry with the same id
is replaced by the updated document. -/
def saveOrder (orders : List OrderDoc) (updated : OrderDoc) : List OrderDoc :=
  orders.map (fun x => if x.oid == updated.oid then updated else x)

/-- findById on the order store, applied to the possibly-absent metadata
order id; an absent id finds no document. -/
def findOrder (orders : List OrderDoc) : Option String → Option OrderDoc
  | none => none
  | some oid => orders.find? (fun x => x.oid == oid)

/-- The single assignment pair of the webhook handler: totalAmount is set to
the gateway-reported amount and status is set to paid. -/
def applyCompletion (order : OrderDoc) (event : WebhookEvent) : OrderDoc :=
  { order with totalAmount := event.amount_total, status := "paid" }

/-- stripeWebhookHandler from the source. constructResult is the outcome of
the signature-verifying constructEvent call on the raw body: an exception
yields a 400; a verified completion event loads the order from the metadata
order id, returns 404 when it is absent, and otherwise sets totalAmount and
status and saves; every other verified event type returns 200 untouched. -/
def stripeWebhookHandler (constructResult : Except String WebhookEvent)
    (orders : List OrderDoc) : WebhookResponse × List OrderDoc :=
  match constructResult with
  | .error m => (.badSignature ("Webhook error: " ++ m), orders)
  | .ok event =>
    if event.eventType == "checkout.session.completed" then
      match findOrder orders event.metadataOrderId with
      | none => (.orderNotFound, orders)
      | some order =>
        let updated := applyCompletion order event
        (.ok, saveOrder orders updated)
    else
      (.ok, orders)

/-- Response of the owner order-status update: 404 when the order is absent,
401 from the owner check, 200 with the updated order otherwise. -/
inductive UpdateStatusResponse where
  | orderNotFound
  | unauthorized
  | ok (order : OrderDoc)
  deriving DecidableEq

/-- updateOrderStatus from the source: load the order by id (404 if absent),
load the restaurant the order references, compare the optional chain
restaurant user id against the authenticated user id (401 on mismatch, which
includes an absent restaurant, whose chain value is undefined), then
overwrite status with the request body value and save. -/
def updateOrderStatus (restaurants : List RestaurantDoc)
    (orders : List OrderDoc) (userId : String) (orderId : String)
    (status : String) : UpdateStatusResponse × List OrderDoc :=
  match orders.find? (fun x => x.oid == orderId) with
  | none => (.orderNotFound, orders)
  | some order =>
    let ownerId :=
      (restaurants.find? (fun r => r.rid == order.restaurant)).map
        (fun r => r.user)
    if ownerId = some userId then
      let updated := { order with status := status }
      (.ok updated, saveOrder orders updated)
    else
      (.unauthorized, orders)

/-- The restaurant fields taken from the request body by the restaurant
create and update handlers. -/
structure RestaurantBody where
  restaurantName : String
  city : String
  country : String
  deliveryPrice : Nat
  estimatedDeliveryTime : Nat
  cuisines : List String
  menuItems : List MenuItem
  deriving DecidableEq

/-- Response of createMyRestaurant: 409 when the user already has a
restaurant, 201 with the created document otherwise. -/
inductive CreateRestaurantResponse where
  | conflict
  | created (r : RestaurantDoc)
  deriving DecidableEq

/-- createMyRestaurant from the source: reject with 409 when a restaurant
owned by the authenticated user already exists, otherwise build a new
restaurant from the body with the uploaded image url, the user id as owner
and the current time, and append it to the store. newId and now stand for
the generated document id and the timestamp. -/
def createMyRestaurant (restaurants : List RestaurantDoc) (userId : String)
    (body : RestaurantBody) (imageUrl : String) (newId : String) (now : Nat) :
    CreateRestaurantResponse × List RestaurantDoc :=
  match restaurants.find? (fun r => r.user == userId) with
  | some _ => (.conflict, restaurants)
  | none =>
    let restaurant : RestaurantDoc :=
      { rid := newId
        user := userId
        restaurantName := body.restaurantName
        city := body.city
        country := body.country
        deliveryPrice := body.deliveryPrice
        estimatedDeliveryTime := body.estimatedDeliveryTime
        cuisines := body.cuisines
        menuItems := body.menuItems
        imageUrl := imageUrl
        lastUpdated := now }
    (.created restaurant, restaurants ++ [restaurant])

/-- Response of updateMyRestaurant: 404 when the user has no restaurant,
200 with the updated document otherwise. -/
inductive UpdateRestaurantResponse where
  | notFound
  | updated (r : RestaurantDoc)
  deriving DecidableEq

/-- Persisting a loaded restaurant with save: replace by document id. -/
def saveRestaurant (restaurants : List RestaurantDoc)
    (updated : RestaurantDoc) : List RestaurantDoc :=
  restaurants.map (fun x => if x.rid == updated.rid then updated else x)

/-- updateMyRestaurant from the source: find the restaurant owned by the
authenticated user (404 if absent), overwrite its body fields in place,
replace the image url only when a file was uploaded, refresh lastUpdated and
save. The owner and document id are untouched. -/
def updateMyRestaurant (restaurants : List RestaurantDoc) (userId : String)
    (body : RestaurantBody) (reqFile : Option String) (now : Nat) :
    UpdateRestaurantResponse × List RestaurantDoc :=
  match restaurants.find? (fun r => r.user == userId) with
  | none => (.notFound, restaurants)
  | some restaurant =>
    let updated : RestaurantDoc :=
      { restaurant with
        restaurantName := body.restaurantName
        city := body.city
        country := body.country
        deliveryPrice := body.deliveryPrice
        estimatedDeliveryTime := body.estimatedDeliveryTime
        cuisines := body.cuisines
        menuItems := body.menuItems
        lastUpdated := now
        imageUrl :=
          match reqFile with
          | some uploadedUrl => uploadedUrl
          | none => restaurant.imageUrl }
    (.updated updated, saveRestaurant restaurants updated)

/-- The invariant of claim C10: for every user id at most one restaurant
document in the store references it as owner. -/
def ownsAtMostOne (restaurants : List RestaurantDoc) : Prop :=
  ∀ uid : String, (restaurants.countP (fun r => r.user == uid)) ≤ 1

/-- Concrete menu used by the witnesses: the single item of the example in
the specification, id m1 priced 500 major units. -/
def sampleMenu : List MenuItem := [{ mid := "m1", name := "pizza", price := 500 }]

/-- Concrete restaurant used by the witnesses: owner owner1, delivery price
300 major units, menu sampleMenu. -/
def sampleRestaurant : RestaurantDoc :=
  { rid := "r1", user := "owner1", restaurantName := "R", city := "C",
    country := "K", deliveryPrice := 300, estimatedDeliveryTime := 30,
    cuisines := [], menuItems := sampleMenu, imageUrl := "img",
    lastUpdated := 0 }

/-- Concrete delivery details used by the witnesses. -/
def sampleDelivery : DeliveryDetails :=
  { email := "e", name := "n", addressLine1 := "a", city := "c" }

/-- Concrete checkout request of the specification example: one cart line
for m1 with quantity string 2. -/
def sampleReq : CheckoutSessionRequest :=
  { cartItems := [{ menuItemId := "m1", name := "x", quantity := "2" }],
    deliveryDetails := sampleDelivery, restaurantId := "r1" }

/-- Concrete cart line referencing the id zz, absent from sampleMenu. -/
def badLine : CartItem := { menuItemId := "zz", name := "x", quantity := "2" }

/-- Concrete checkout request whose only cart line is unresolvable. -/
def badReq : CheckoutSessionRequest :=
  { cartItems := [badLine], deliveryDetails := sampleDelivery,
    restaurantId := "r1" }

/-- A gateway that always returns a session with a redirect URL. -/
def gwOk : Gateway := fun _ => .ok { url := some "https://pay.example" }

/-- A gateway that always throws. -/
def gwFail : Gateway := fun _ => .error (.gateway "gateway down")

/-- A concrete order in the placed state, referencing sampleRestaurant. -/
def sampleOrder : OrderDoc :=
  { oid := "o1", restaurant := "r1", user := "cust1", status := "placed",
    deliveryDetails := sampleDelivery, cartItems := sampleReq.cartItems,
    totalAmount := none, createdAt := 0 }

/-- The gateway line item the specification example expects for sampleReq:
unit amount 50000 minor units, named from the menu item, quantity 2. -/
def sampleLineItem : LineItem :=
  { unit_amount := 50000, currency := "dzd", name := "pizza",
    quantity := some 2 }

/-- A concrete verified completion event referencing sampleOrder. -/
def sampleEvent : WebhookEvent :=
  { eventType := "checkout.session.completed", metadataOrderId := some "o1",
    amount_total := some 130000 }

/-- A concrete verified event of a type other than session completion. -/
def otherEvent : WebhookEvent :=
  { eventType := "payment_intent.created", metadataOrderId := some "o1",
    amount_total := some 5 }

section Lemmas

/-- If some cart line is unresolvable in the menu, the line-item traversal
throws a plain Error naming an unresolvable line of the cart. -/
lemma createLineItemsGo_missing (menuItems : List MenuItem) :
    ∀ items : List CartItem,
    (∃ c ∈ items, menuItems.find? (fun item => item.mid == c.menuItemId) = none) →
    ∃ c ∈ items,
      menuItems.find? (fun item => item.mid == c.menuItemId) = none ∧
      createLineItemsGo menuItems items =
        .error (.plain ("Menu item not found: " ++ c.menuItemId)) := by
  intro items
  induction items with
  | nil => rintro ⟨c, hc, -⟩; cases hc
  | cons a rest ih =>
    rintro ⟨c, hc, hnone⟩
    by_cases ha : menuItems.find? (fun item => item.mid == a.menuItemId) = none
    · refine ⟨a, List.mem_cons_self a rest, ha, ?_⟩
      simp only [createLineItemsGo, ha]
    · have hcr : c ∈ rest := by
        rcases List.mem_cons.mp hc with h | h
        · exact absurd hnone (h ▸ ha)
        · exact h
      obtain ⟨c2, hc2, hn2, heq⟩ := ih ⟨c, hcr, hnone⟩
      obtain ⟨mi, hmi⟩ := Option.ne_none_iff_exists'.mp ha
      refine ⟨c2, List.mem_cons_of_mem a hc2, hn2, ?_⟩
      simp only [createLineItemsGo, hmi, heq]

/-- If the line-item traversal succeeds, it produced one line item per cart
line, each priced from the resolved menu item. -/
lemma createLineItemsGo_ok_spec (menuItems : List MenuItem) :
    ∀ (items : List CartItem) (lis : List LineItem),
    createLineItemsGo menuItems items = .ok lis →
    lis.length = items.length ∧
    ∀ i (hi : i < items.length), ∃ (hli : i < lis.length) (mi : MenuItem),
      menuItems.find? (fun item => item.mid == (items.get ⟨i, hi⟩).menuItemId) =
        some mi ∧
      lis.get ⟨i, hli⟩ = mkLineItem mi (items.get ⟨i, hi⟩) := by
  intro items
  induction items with
  | nil =>
    intro lis h
    simp only [createLineItemsGo] at h
    cases h
    exact ⟨rfl, fun i hi => absurd hi (by simp)⟩
  | cons a rest ih =>
    intro lis h
    simp only [createLineItemsGo] at h
    cases hf : menuItems.find? (fun item => item.mid == a.menuItemId) with
    | none => rw [hf] at h; cases h
    | some mi =>
      rw [hf] at h
      cases hgo : createLineItemsGo menuItems rest with
      | error e => rw [hgo] at h; cases h
      | ok tail =>
        rw [hgo] at h
        cases h
        obtain ⟨hlen, hpt⟩ := ih tail hgo
        refine ⟨by simp [hlen], ?_⟩
        intro i hi
        cases i with
        | zero => exact ⟨by simp, mi, hf, rfl⟩
        | succ j =>
          have hj : j < rest.length := Nat.lt_of_succ_lt_succ hi
          obtain ⟨hlj, mi2, hfind2, hget2⟩ := hpt j hj
          exact ⟨Nat.succ_lt_succ hlj, mi2, hfind2, hget2⟩

/-- After saving a document whose id equals the id of the document found by
an id lookup, the same lookup finds the saved document. -/
lemma find?_saveOrder (orders : List OrderDoc) (o updated : OrderDoc)
    (oid : String)
    (hfind : orders.find? (fun x => x.oid == oid) = some o)
    (hid : updated.oid = o.oid) :
    (saveOrder orders updated).find? (fun x => x.oid == oid) = some updated := by
  have hoid : o.oid = oid := by simpa using List.find?_some hfind
  induction orders with
  | nil => simp at hfind
  | cons a rest ih =>
    by_cases ha : a.oid = oid
    · rw [List.find?_cons_of_pos _ (by simpa using ha)] at hfind
      obtain rfl : a = o := by injection hfind
      have hrep : (a.oid == updated.oid) = true := by simp [hid]
      simp only [saveOrder, List.map_cons, hrep, if_true]
      exact List.find?_cons_of_pos _ (by simp [hid, hoid])
    · rw [List.find?_cons_of_neg _ (by simpa using ha)] at hfind
      have hrep : (a.oid == updated.oid) = false := by
        simp only [hid, hoid, beq_eq_false_iff_ne, ne_eq]
        exact ha
      simp only [saveOrder, List.map_cons, hrep, if_false]
      rw [List.find?_cons_of_neg _ (by simpa using ha)]
      exact ih hfind

/-- Replacing a stored restaurant by an update that keeps its id and owner
does not change the ownership count of any user, provided document ids are
unique in the store. -/
lemma countP_user_saveRestaurant (restaurants : List RestaurantDoc)
    (r0 upd : RestaurantDoc) (uid : String)
    (hids : (restaurants.map (fun r => r.rid)).Nodup)
    (hmem : r0 ∈ restaurants)
    (hrid : upd.rid = r0.rid) (huser : upd.user = r0.user) :
    (saveRestaurant restaurants upd).countP (fun r => r.user == uid) =
      restaurants.countP (fun r => r.user == uid) := by
  unfold saveRestaurant
  rw [List.countP_map]
  apply List.countP_congr
  intro x hx
  by_cases hxid : (x.rid == upd.rid) = true
  · have hx0 : x = r0 := by
      apply List.inj_on_of_nodup_map hids hx hmem
      simpa [hrid] using hxid
    subst hx0
    simp [Function.comp, hxid, huser]
  · simp [Function.comp, hxid]

/-- Saving the same updated document twice is the same as saving it once. -/
lemma saveOrder_idem (orders : List OrderDoc) (u : OrderDoc) :
    saveOrder (saveOrder orders u) u = saveOrder orders u := by
  unfold saveOrder
  rw [List.map_map]
  refine List.map_congr_left ?_
  intro x _
  by_cases h : (x.oid == u.oid) = true
  · simp [Function.comp, h]
  · simp [Function.comp, h]

end Lemmas

/-- C1: for every checkout-session request, if the gateway call throws or
returns a session without a redirect URL, no Order is persisted: the order
store after the operation equals the order store before it. -/
theorem checkout_gateway_failure_leaves_orders_unchanged
    (gw : Gateway) (frontendUrl : String) (restaurants : List RestaurantDoc)
    (orders : List OrderDoc) (userId newOrderId : String) (now : Nat)
    (req : CheckoutSessionRequest)
    (hgw : ∀ p, (∃ e, gw p = Except.error e) ∨
      ∃ s, gw p = Except.ok s ∧ s.url = none) :
    (createCheckoutSession gw frontendUrl restaurants orders userId newOrderId
      now req).orders = orders := by
  unfold createCheckoutSession
  cases hr : restaurants.find? (fun r => r.rid == req.restaurantId) with
  | none => rfl
  | some restaurant =>
    dsimp only
    cases hl : createLineItems req restaurant.menuItems with
    | error e => rfl
    | ok lineItems =>
      dsimp only
      rcases hgw (createSessionParams lineItems newOrderId
          restaurant.deliveryPrice restaurant.rid frontendUrl) with
        ⟨e, he⟩ | ⟨s, hs, hurl⟩
      · rw [he]
      · simp only [hs, hurl]

/-- C1 witness: a gateway that always throws, applied to a concrete store and
request, leaves the concrete order store unchanged. -/
theorem checkout_gateway_failure_leaves_orders_unchanged_witness :
    (∀ p, (∃ e, gwFail p = Except.error e) ∨
      ∃ s, gwFail p = Except.ok s ∧ s.url = none) ∧
    (createCheckoutSession gwFail "https://front" [sampleRestaurant]
      [sampleOrder] "cust1" "o9" 7 sampleReq).orders = [sampleOrder] :=
  ⟨fun _ => Or.inl ⟨ThrownError.gateway "gateway down", rfl⟩,
    checkout_gateway_failure_leaves_orders_unchanged _ _ _ _ _ _ _ _
      (fun _ => Or.inl ⟨ThrownError.gateway "gateway down", rfl⟩)⟩

/-- C2: for every checkout-session request whose cart has a line whose
menuItemId matches no menu item of the resolved restaurant, the operation
fails carrying the offending id in the thrown error, no gateway call is made,
and the order store is unchanged. -/
theorem checkout_unresolved_line_blocks_gateway_and_persist
    (gw : Gateway) (frontendUrl : String) (restaurants : List RestaurantDoc)
    (orders : List OrderDoc) (userId newOrderId : String) (now : Nat)
    (req : CheckoutSessionRequest) (restaurant : RestaurantDoc)
    (hr : restaurants.find? (fun r => r.rid == req.restaurantId) =
      some restaurant)
    (hbad : ∃ c ∈ req.cartItems,
      restaurant.menuItems.find? (fun item => item.mid == c.menuItemId) = none) :
    ∃ c ∈ req.cartItems,
      restaurant.menuItems.find? (fun item => item.mid == c.menuItemId) = none ∧
      createCheckoutSession gw frontendUrl restaurants orders userId newOrderId
          now req =
        { response :=
            .handlerCrash (.plain ("Menu item not found: " ++ c.menuItemId))
          orders := orders
          gatewayCalls := [] } := by
  obtain ⟨c, hc, hnone, herr⟩ :=
    createLineItemsGo_missing restaurant.menuItems req.cartItems hbad
  refine ⟨c, hc, hnone, ?_⟩
  unfold createCheckoutSession
  rw [hr]
  dsimp only
  rw [show createLineItems req restaurant.menuItems =
    .error (.plain ("Menu item not found: " ++ c.menuItemId)) from herr]
  rfl

/-- C2 witness: a concrete cart referencing the id zz, absent from the menu,
stops the operation before the gateway with the id in the error and leaves
the store unchanged. -/
theorem checkout_unresolved_line_blocks_gateway_and_persist_witness :
    ([sampleRestaurant].find? (fun r => r.rid == badReq.restaurantId) =
      some sampleRestaurant) ∧
    (∃ c ∈ badReq.cartItems,
      sampleRestaurant.menuItems.find?
        (fun item => item.mid == c.menuItemId) = none) ∧
    ∃ c ∈ badReq.cartItems,
      sampleRestaurant.menuItems.find?
        (fun item => item.mid == c.menuItemId) = none ∧
      createCheckoutSession gwOk "https://front" [sampleRestaurant]
          [sampleOrder] "cust1" "o9" 7 badReq =
        { response :=
            .handlerCrash (.plain ("Menu item not found: " ++ c.menuItemId))
          orders := [sampleOrder]
          gatewayCalls := [] } :=
  ⟨rfl, ⟨badLine, List.mem_cons_self _ _, rfl⟩,
    checkout_unresolved_line_blocks_gateway_and_persist _ _ _ _ _ _ _ _ _
      rfl ⟨badLine, List.mem_cons_self _ _, rfl⟩⟩

/-- C3: when every cart line resolves, the gateway is called exactly once
with one line item per cart line, each priced at the resolved menu item price
times 100, named after the menu item, with quantity parsed from the cart
line quantity string, and with one fixed-amount Delivery shipping option of
deliveryPrice times 100. -/
theorem checkout_line_items_pricing
    (gw : Gateway) (frontendUrl : String) (restaurants : List RestaurantDoc)
    (orders : List OrderDoc) (userId newOrderId : String) (now : Nat)
    (req : CheckoutSessionRequest) (restaurant : RestaurantDoc)
    (lineItems : List LineItem)
    (hr : restaurants.find? (fun r => r.rid == req.restaurantId) =
      some restaurant)
    (hl : createLineItems req restaurant.menuItems = Except.ok lineItems) :
    (createCheckoutSession gw frontendUrl restaurants orders userId newOrderId
        now req).gatewayCalls =
      [createSessionParams lineItems newOrderId restaurant.deliveryPrice
        restaurant.rid frontendUrl] ∧
    (createSessionParams lineItems newOrderId restaurant.deliveryPrice
        restaurant.rid frontendUrl).shipping_options =
      [{ display_name := "Delivery", rateType := "fixed_amount",
         amount := restaurant.deliveryPrice * 100, currency := "dzd" }] ∧
    lineItems.length = req.cartItems.length ∧
    ∀ i (hi : i < req.cartItems.length),
      ∃ (hli : i < lineItems.length) (mi : MenuItem),
        restaurant.menuItems.find?
          (fun item => item.mid == (req.cartItems.get ⟨i, hi⟩).menuItemId) =
          some mi ∧
        lineItems.get ⟨i, hli⟩ =
          { unit_amount := mi.price * 100, currency := "dzd", name := mi.name,
            quantity := jsParseInt (req.cartItems.get ⟨i, hi⟩).quantity } := by
  obtain ⟨hlen, hpt⟩ :=
    createLineItemsGo_ok_spec restaurant.menuItems req.cartItems lineItems hl
  refine ⟨?_, rfl, hlen, hpt⟩
  unfold createCheckoutSession
  rw [hr]
  dsimp only
  rw [hl]
  dsimp only
  cases hgw : gw (createSessionParams lineItems newOrderId
      restaurant.deliveryPrice restaurant.rid frontendUrl) with
  | error e => rfl
  | ok session => cases session with
    | mk url => cases url <;> rfl

/-- C3 witness: the specification example, menu price 500, quantity string 2
and deliveryPrice 300 give unit amount 50000, quantity 2 and shipping fixed
amount 30000. -/
theorem checkout_line_items_pricing_witness :
    ([sampleRestaurant].find? (fun r => r.rid == sampleReq.restaurantId) =
      some sampleRestaurant) ∧
    (createLineItems sampleReq sampleRestaurant.menuItems =
      Except.ok [sampleLineItem]) ∧
    sampleLineItem.unit_amount = 50000 ∧
    sampleLineItem.quantity = some 2 ∧
    sampleRestaurant.deliveryPrice * 100 = 30000 ∧
    ((createCheckoutSession gwOk "https://front" [sampleRestaurant] []
        "cust1" "o9" 7 sampleReq).gatewayCalls =
      [createSessionParams [sampleLineItem] "o9"
        sampleRestaurant.deliveryPrice sampleRestaurant.rid "https://front"] ∧
    (createSessionParams [sampleLineItem] "o9"
        sampleRestaurant.deliveryPrice sampleRestaurant.rid
        "https://front").shipping_options =
      [{ display_name := "Delivery", rateType := "fixed_amount",
         amount := sampleRestaurant.deliveryPrice * 100, currency := "dzd" }] ∧
    ([sampleLineItem] : List LineItem).length = sampleReq.cartItems.length ∧
    ∀ i (hi : i < sampleReq.cartItems.length),
      ∃ (hli : i < ([sampleLineItem] : List LineItem).length) (mi : MenuItem),
        sampleRestaurant.menuItems.find?
          (fun item =>
            item.mid == (sampleReq.cartItems.get ⟨i, hi⟩).menuItemId) =
          some mi ∧
        ([sampleLineItem] : List LineItem).get ⟨i, hli⟩ =
          { unit_amount := mi.price * 100, currency := "dzd", name := mi.name,
            quantity := jsParseInt (sampleReq.cartItems.get ⟨i, hi⟩).quantity }) :=
  ⟨rfl, rfl, rfl, rfl, rfl,
    checkout_line_items_pricing _ _ _ _ _ _ _ _ _ _ rfl rfl⟩

/-- C9: the checkout catch block is not total. Resolving no restaurant (and
likewise an unresolvable cart line) throws a plain Error whose raw field is
undefined, so building the 500 body from error.raw.message fails and the
handler crashes instead of answering with a JSON 500. -/
theorem checkout_catch_block_crash_on_plain_error :
    (createCheckoutSession gwOk "https://front" [] [] "cust1" "o9" 7
        sampleReq).response =
      .handlerCrash (.plain "Restaurant not found") ∧
    (createCheckoutSession gwOk "https://front" [sampleRestaurant] []
        "cust1" "o9" 7 badReq).response =
      .handlerCrash (.plain "Menu item not found: zz") ∧
    (ThrownError.plain "Restaurant not found").rawMessage = none ∧
    (ThrownError.plain "Menu item not found: zz").rawMessage = none :=
  ⟨rfl, rfl, rfl, rfl⟩

/-- C4: for every verified session-completed event whose metadata order id
resolves to an existing Order, the handler saves that Order with status paid
and totalAmount set to the gateway-reported amount, and the saved Order is
the one an id lookup now finds in the store. -/
theorem webhook_completion_marks_order_paid
    (ev : WebhookEvent) (orders : List OrderDoc) (o : OrderDoc)
    (ht : ev.eventType = "checkout.session.completed")
    (ho : findOrder orders ev.metadataOrderId = some o) :
    ∃ u, stripeWebhookHandler (Except.ok ev) orders =
        (.ok, saveOrder orders u) ∧
      findOrder (stripeWebhookHandler (Except.ok ev) orders).2
        ev.metadataOrderId = some u ∧
      u.status = "paid" ∧ u.totalAmount = ev.amount_total := by
  have hrun : stripeWebhookHandler (Except.ok ev) orders =
      (.ok, saveOrder orders (applyCompletion o ev)) := by
    unfold stripeWebhookHandler
    simp only [ht, beq_self_eq_true, if_true, ho]
  refine ⟨applyCompletion o ev, hrun, ?_, rfl, rfl⟩
  rw [hrun]
  cases hm : ev.metadataOrderId with
  | none => rw [hm] at ho; cases ho
  | some oid =>
    rw [hm] at ho
    exact find?_saveOrder orders o (applyCompletion o ev) oid ho rfl

/-- C4 witness: the concrete completion event applied to the one-order store
persists that order as paid with the reported total. -/
theorem webhook_completion_marks_order_paid_witness :
    sampleEvent.eventType = "checkout.session.completed" ∧
    findOrder [sampleOrder] sampleEvent.metadataOrderId = some sampleOrder ∧
    ∃ u, stripeWebhookHandler (Except.ok sampleEvent) [sampleOrder] =
        (.ok, saveOrder [sampleOrder] u) ∧
      findOrder (stripeWebhookHandler (Except.ok sampleEvent) [sampleOrder]).2
        sampleEvent.metadataOrderId = some u ∧
      u.status = "paid" ∧ u.totalAmount = sampleEvent.amount_total :=
  ⟨rfl, rfl, webhook_completion_marks_order_paid _ _ _ rfl rfl⟩

/-- C5: replaying a verified session-completed event is idempotent: running
the handler a second time on the store it produced returns the same response
and the same store, and the order remains paid with the same totalAmount. -/
theorem webhook_completion_idempotent
    (ev : WebhookEvent) (orders : List OrderDoc) (o : OrderDoc)
    (ht : ev.eventType = "checkout.session.completed")
    (ho : findOrder orders ev.metadataOrderId = some o) :
    stripeWebhookHandler (Except.ok ev)
        (stripeWebhookHandler (Except.ok ev) orders).2 =
      stripeWebhookHandler (Except.ok ev) orders ∧
    ∃ u, findOrder (stripeWebhookHandler (Except.ok ev) orders).2
        ev.metadataOrderId = some u ∧
      u.status = "paid" ∧ u.totalAmount = ev.amount_total := by
  obtain ⟨oid, hm⟩ : ∃ oid, ev.metadataOrderId = some oid := by
    cases hmm : ev.metadataOrderId with
    | none => rw [hmm] at ho; cases ho
    | some x => exact ⟨x, rfl⟩
  rw [hm] at ho
  have hrun : stripeWebhookHandler (Except.ok ev) orders =
      (.ok, saveOrder orders (applyCompletion o ev)) := by
    unfold stripeWebhookHandler
    simp only [ht, beq_self_eq_true, if_true, hm]
    rw [show findOrder orders (some oid) = some o from ho]
  have hfind2 : (saveOrder orders (applyCompletion o ev)).find?
      (fun x => x.oid == oid) = some (applyCompletion o ev) :=
    find?_saveOrder orders o (applyCompletion o ev) oid ho rfl
  have happ : applyCompletion (applyCompletion o ev) ev =
      applyCompletion o ev := rfl
  have hrun2 : stripeWebhookHandler (Except.ok ev)
      (saveOrder orders (applyCompletion o ev)) =
      (.ok, saveOrder orders (applyCompletion o ev)) := by
    unfold stripeWebhookHandler
    simp only [ht, beq_self_eq_true, if_true, hm]
    rw [show findOrder (saveOrder orders (applyCompletion o ev)) (some oid) =
      some (applyCompletion o ev) from hfind2]
    dsimp only
    rw [happ, saveOrder_idem]
  refine ⟨?_, applyCompletion o ev, ?_, rfl, rfl⟩
  · rw [hrun]
    exact hrun2
  · rw [hrun, hm]
    exact hfind2

/-- C5 witness: replaying the concrete completion event on the one-order
store returns the same response and store as the first run. -/
theorem webhook_completion_idempotent_witness :
    sampleEvent.eventType = "checkout.session.completed" ∧
    findOrder [sampleOrder] sampleEvent.metadataOrderId = some sampleOrder ∧
    (stripeWebhookHandler (Except.ok sampleEvent)
        (stripeWebhookHandler (Except.ok sampleEvent) [sampleOrder]).2 =
      stripeWebhookHandler (Except.ok sampleEvent) [sampleOrder] ∧
    ∃ u, findOrder
        (stripeWebhookHandler (Except.ok sampleEvent) [sampleOrder]).2
        sampleEvent.metadataOrderId = some u ∧
      u.status = "paid" ∧ u.totalAmount = sampleEvent.amount_total) :=
  ⟨rfl, rfl, webhook_completion_idempotent _ _ _ rfl rfl⟩

/-- C6: a verified event of any other type is answered 200 and the order
store is unchanged. -/
theorem webhook_other_event_no_state_change
    (ev : WebhookEvent) (orders : List OrderDoc)
    (ht : ev.eventType ≠ "checkout.session.completed") :
    stripeWebhookHandler (Except.ok ev) orders = (.ok, orders) := by
  have hb : (ev.eventType == "checkout.session.completed") = false := by
    simpa using ht
  unfold stripeWebhookHandler
  simp [hb]

/-- C6 witness: the concrete payment-intent event leaves the one-order store
unchanged and is answered 200. -/
theorem webhook_other_event_no_state_change_witness :
    otherEvent.eventType ≠ "checkout.session.completed" ∧
    stripeWebhookHandler (Except.ok otherEvent) [sampleOrder] =
      (.ok, [sampleOrder]) :=
  ⟨by decide, webhook_other_event_no_state_change _ _ (by decide)⟩

/-- C7: an owner-status-update request against an existing order whose
existing restaurant is owned by a different identity is rejected with 401
and the order store, hence the status field, is unchanged. -/
theorem update_status_owner_mismatch_rejected
    (restaurants : List RestaurantDoc) (orders : List OrderDoc)
    (userId orderId status : String) (o : OrderDoc) (r : RestaurantDoc)
    (ho : orders.find? (fun x => x.oid == orderId) = some o)
    (hr : restaurants.find? (fun x => x.rid == o.restaurant) = some r)
    (hne : r.user ≠ userId) :
    updateOrderStatus restaurants orders userId orderId status =
      (.unauthorized, orders) := by
  unfold updateOrderStatus
  rw [ho]
  dsimp only
  rw [hr]
  rw [if_neg]
  intro h
  exact hne (Option.some_injective _ h)

/-- C7 witness: the intruder identity cannot update the status of the
concrete order owned by owner1; the store is unchanged. -/
theorem update_status_owner_mismatch_rejected_witness :
    ([sampleOrder].find? (fun x => x.oid == "o1") = some sampleOrder) ∧
    ([sampleRestaurant].find?
      (fun x => x.rid == sampleOrder.restaurant) = some sampleRestaurant) ∧
    sampleRestaurant.user ≠ "intruder" ∧
    updateOrderStatus [sampleRestaurant] [sampleOrder] "intruder" "o1"
        "delivered" = (.unauthorized, [sampleOrder]) :=
  ⟨rfl, rfl, by decide,
    update_status_owner_mismatch_rejected _ _ _ _ _ _ _ rfl rfl (by decide)⟩

/-- C8 counterexample: with the referenced restaurant absent from the store,
the owner-status update answers 401 Unauthorized, not a NotFound outcome,
and leaves the store unchanged. -/
theorem update_status_missing_restaurant_not_notfound :
    (updateOrderStatus [] [sampleOrder] "owner1" "o1" "delivered").1 =
      .unauthorized ∧
    (updateOrderStatus [] [sampleOrder] "owner1" "o1" "delivered").1 ≠
      .orderNotFound ∧
    (updateOrderStatus [] [sampleOrder] "owner1" "o1" "delivered").2 =
      [sampleOrder] := by
  refine ⟨rfl, ?_, rfl⟩
  intro h
  simp [updateOrderStatus, sampleOrder] at h

/-- C8 amended: when the order exists but the restaurant it references is
absent, the optional owner chain is undefined and the comparison fails, so
the request is rejected with the same 401 Unauthorized as an owner mismatch
(not NotFound), leaving the store unchanged. -/
theorem update_status_missing_restaurant_unauthorized
    (restaurants : List RestaurantDoc) (orders : List OrderDoc)
    (userId orderId status : String) (o : OrderDoc)
    (ho : orders.find? (fun x => x.oid == orderId) = some o)
    (hr : restaurants.find? (fun x => x.rid == o.restaurant) = none) :
    updateOrderStatus restaurants orders userId orderId status =
      (.unauthorized, orders) := by
  unfold updateOrderStatus
  rw [ho]
  dsimp only
  rw [hr]
  rw [if_neg]
  intro h
  cases h

/-- C8 amended witness: the concrete order whose restaurant is missing from
the store yields 401 for its own owner as well. -/
theorem update_status_missing_restaurant_unauthorized_witness :
    ([sampleOrder].find? (fun x => x.oid == "o1") = some sampleOrder) ∧
    (([] : List RestaurantDoc).find?
      (fun x => x.rid == sampleOrder.restaurant) = none) ∧
    updateOrderStatus [] [sampleOrder] "owner1" "o1" "delivered" =
      (.unauthorized, [sampleOrder]) :=
  ⟨rfl, rfl,
    update_status_missing_restaurant_unauthorized _ _ _ _ _ _ rfl rfl⟩

/-- C10: each user owns at most one restaurant. Creation is rejected with a
409 conflict whenever the user already has one, and both creation and the
in-place update preserve the at-most-one-restaurant-per-owner invariant
(updates assume unique document ids, the primary-key property of the store). -/
theorem restaurant_ops_preserve_single_ownership
    (restaurants : List RestaurantDoc) (userId : String)
    (body : RestaurantBody) (imageUrl newId : String)
    (reqFile : Option String) (now : Nat)
    (hOwn : ownsAtMostOne restaurants)
    (hIds : (restaurants.map (fun r => r.rid)).Nodup) :
    (∀ r0, restaurants.find? (fun r => r.user == userId) = some r0 →
      createMyRestaurant restaurants userId body imageUrl newId now =
        (.conflict, restaurants)) ∧
    ownsAtMostOne
      (createMyRestaurant restaurants userId body imageUrl newId now).2 ∧
    ownsAtMostOne (updateMyRestaurant restaurants userId body reqFile now).2 := by
  refine ⟨?_, ?_, ?_⟩
  · intro r0 h
    unfold createMyRestaurant
    rw [h]
  · unfold createMyRestaurant
    cases hf : restaurants.find? (fun r => r.user == userId) with
    | some r0 => exact hOwn
    | none =>
      dsimp only
      intro uid
      rw [List.countP_append]
      by_cases huid : userId = uid
      · subst huid
        have h0 : restaurants.countP (fun r => r.user == userId) = 0 := by
          rw [List.countP_eq_zero]
          intro a ha
          simpa using List.find?_eq_none.mp hf a ha
        rw [h0]
        simp [List.countP, List.countP.go]
      · have hb : (userId == uid) = false := by simpa using huid
        have h1 : List.countP (fun r => r.user == uid)
            [({ rid := newId, user := userId,
                restaurantName := body.restaurantName, city := body.city,
                country := body.country, deliveryPrice := body.deliveryPrice,
                estimatedDeliveryTime := body.estimatedDeliveryTime,
                cuisines := body.cuisines, menuItems := body.menuItems,
                imageUrl := imageUrl, lastUpdated := now } : RestaurantDoc)] =
              0 := by
          simp [List.countP, List.countP.go, hb]
        rw [h1]
        simpa using hOwn uid
  · unfold updateMyRestaurant
    cases hf : restaurants.find? (fun r => r.user == userId) with
    | none => exact hOwn
    | some r0 =>
      dsimp only
      intro uid
      refine le_trans (le_of_eq (countP_user_saveRestaurant restaurants r0 _
        uid hIds (List.mem_of_find?_eq_some hf) ?_ ?_)) (hOwn uid) <;> rfl

/-- C10 witness: on the one-restaurant store owned by owner1, creating for
owner1 is a 409 conflict and both operations preserve the invariant. -/
theorem restaurant_ops_preserve_single_ownership_witness :
    ownsAtMostOne [sampleRestaurant] ∧
    (([sampleRestaurant].map (fun r => r.rid)).Nodup) ∧
    ((∀ r0, [sampleRestaurant].find? (fun r => r.user == "owner1") = some r0 →
      createMyRestaurant [sampleRestaurant] "owner1"
          { restaurantName := "R2", city := "C2", country := "K2",
            deliveryPrice := 7, estimatedDeliveryTime := 9, cuisines := [],
            menuItems := [] } "img2" "r2" 3 =
        (.conflict, [sampleRestaurant])) ∧
    ownsAtMostOne
      (createMyRestaurant [sampleRestaurant] "owner1"
        { restaurantName := "R2", city := "C2", country := "K2",
          deliveryPrice := 7, estimatedDeliveryTime := 9, cuisines := [],
          menuItems := [] } "img2" "r2" 3).2 ∧
    ownsAtMostOne
      (updateMyRestaurant [sampleRestaurant] "owner1"
        { restaurantName := "R2", city := "C2", country := "K2",
          deliveryPrice := 7, estimatedDeliveryTime := 9, cuisines := [],
          menuItems := [] } none 3).2) :=
  ⟨fun uid => List.countP_le_length (fun r : RestaurantDoc => r.user == uid),
    by simp,
    restaurant_ops_preserve_single_ownership _ _ _ _ _ _ _
      (fun uid => List.countP_le_length (fun r : RestaurantDoc => r.user == uid))
      (by simp)⟩

end FoodDelivery
